import Mathlib

/-!
Verification of `py-clean-cli` registration / discovery / dispatch

Shallow embedding of the core of the `py-clean-cli` repository:

* `CommandRegistryHelper` (src/py_clean_cli/helpers/command_registry_helper.py),
* the `command` decorator (src/py_clean_cli/decorators/command_decorator.py),
* `CommandsManager` (src/py_clean_cli/services/managers/commands_manager.py),
* `discover_commands` (src/py_clean_cli/helpers/discover_commands_helper.py),
* the path validation in `package_cli` (src/py_clean_cli/main.py).

Python objects that the code only compares by identity (command classes,
parsers) are modelled by numeric ids.  Python `dict`s are modelled as
association lists in insertion order with unique keys, `set`s of names as
lists without duplicates, exceptions as an explicit error type.
-/

set_option autoImplicit false

namespace PyCleanCli

universe u v

/-- A Python `dict` update `d[k] = v`: if the key is present its value is
replaced in place (insertion order kept), otherwise the pair is appended. -/
def pyDictInsert {κ : Type u} {α : Type v} [DecidableEq κ] :
    List (κ × α) → κ → α → List (κ × α)
  | [], k, v => [(k, v)]
  | (k', v') :: rest, k, v =>
    if k' = k then (k, v) :: rest else (k', v') :: pyDictInsert rest k v

/-- A Python `dict` lookup `d.get(k)`. -/
def pyDictGet {κ : Type u} {α : Type v} [DecidableEq κ] :
    List (κ × α) → κ → Option α
  | [], _ => none
  | (k', v') :: rest, k => if k' = k then some v' else pyDictGet rest k

/-- The keys of a modelled `dict`, in insertion order (`d.keys()`). -/
def pyDictKeys {κ : Type u} {α : Type v} (d : List (κ × α)) : List κ :=
  d.map Prod.fst

/-- The values of a modelled `dict`, in insertion order (`d.values()`). -/
def pyDictValues {κ : Type u} {α : Type v} (d : List (κ × α)) : List α :=
  d.map Prod.snd

section DictLemmas

variable {κ : Type u} {α : Type v} [DecidableEq κ]

theorem pyDictGet_insert_self (d : List (κ × α)) (k : κ) (v : α) :
    pyDictGet (pyDictInsert d k v) k = some v := by
  induction d with
  | nil => simp [pyDictInsert, pyDictGet]
  | cons p rest ih =>
    obtain ⟨k', v'⟩ := p
    by_cases h : k' = k
    · simp [pyDictInsert, pyDictGet, h]
    · simp [pyDictInsert, pyDictGet, h, ih]

theorem pyDictGet_insert_ne (d : List (κ × α)) {k k' : κ} (v : α) (h : k' ≠ k) :
    pyDictGet (pyDictInsert d k v) k' = pyDictGet d k' := by
  induction d with
  | nil => simp [pyDictInsert, pyDictGet, Ne.symm h]
  | cons p rest ih =>
    obtain ⟨k₀, v₀⟩ := p
    by_cases h₀ : k₀ = k
    · subst h₀
      simp [pyDictInsert, pyDictGet, Ne.symm h]
    · simp only [pyDictInsert, if_neg h₀]
      by_cases h₁ : k₀ = k'
      · simp [pyDictGet, h₁]
      · simp [pyDictGet, h₁, ih]

theorem mem_pyDictKeys_insert_self (d : List (κ × α)) (k : κ) (v : α) :
    k ∈ pyDictKeys (pyDictInsert d k v) := by
  induction d with
  | nil => simp [pyDictInsert, pyDictKeys]
  | cons p rest ih =>
    obtain ⟨k', v'⟩ := p
    by_cases h : k' = k
    · simp [pyDictInsert, pyDictKeys, h]
    · simpa [pyDictInsert, pyDictKeys, h] using Or.inr ih

theorem mem_pyDictKeys_insert {d : List (κ × α)} {k a : κ} {v : α}
    (h : a ∈ pyDictKeys (pyDictInsert d k v)) : a = k ∨ a ∈ pyDictKeys d := by
  induction d with
  | nil => simpa [pyDictInsert, pyDictKeys] using h
  | cons p rest ih =>
    obtain ⟨k', v'⟩ := p
    by_cases hk : k' = k
    · subst hk
      rcases (by simpa [pyDictInsert, pyDictKeys] using h) with h' | h'
      · exact Or.inl h'
      · exact Or.inr (by simp [pyDictKeys, h'])
    · rcases (by simpa [pyDictInsert, pyDictKeys, hk] using h) with h' | h'
      · exact Or.inr (by simp [pyDictKeys, h'])
      · rcases ih (by simpa [pyDictKeys] using h') with h'' | h''
        · exact Or.inl h''
        · exact Or.inr (by simp [pyDictKeys]; exact Or.inr (by simpa [pyDictKeys] using h''))

theorem length_pyDictInsert_of_mem {d : List (κ × α)} {k : κ} (v : α)
    (h : k ∈ pyDictKeys d) : (pyDictInsert d k v).length = d.length := by
  induction d with
  | nil => simp [pyDictKeys] at h
  | cons p rest ih =>
    obtain ⟨k', v'⟩ := p
    by_cases hk : k' = k
    · simp [pyDictInsert, hk]
    · have hmem : k ∈ pyDictKeys rest := by
        rcases (by simpa [pyDictKeys] using h) with h' | h'
        · exact absurd h'.symm hk
        · simpa [pyDictKeys] using h'
      simp [pyDictInsert, hk, ih hmem]

theorem nodup_pyDictKeys_insert {d : List (κ × α)} (k : κ) (v : α)
    (h : (pyDictKeys d).Nodup) : (pyDictKeys (pyDictInsert d k v)).Nodup := by
  induction d with
  | nil => simp [pyDictInsert, pyDictKeys]
  | cons p rest ih =>
    obtain ⟨k', v'⟩ := p
    rw [pyDictKeys, List.map_cons, List.nodup_cons] at h
    by_cases hk : k' = k
    · subst hk
      simpa [pyDictInsert, pyDictKeys, List.nodup_cons] using h
    · have h1 : k' ∉ pyDictKeys (pyDictInsert rest k v) := by
        intro hmem
        rcases mem_pyDictKeys_insert hmem with h' | h'
        · exact hk h'
        · exact h.1 (by simpa [pyDictKeys] using h')
      have h2 := ih h.2
      simp only [pyDictInsert, if_neg hk, pyDictKeys, List.map_cons, List.nodup_cons]
      constructor
      · intro hmem
        exact h1 (by simpa [pyDictKeys] using hmem)
      · simpa [pyDictKeys] using h2

end DictLemmas

/-- The two class-level attributes `register` stamps onto a command class
(`command_name`, `command_help`, cf. the `ClassVar` defaults `""` in
`CommandArgsModel`, src/py_clean_cli/models/commamd_model.py). -/
structure ClassAttrs where
  command_name : String
  command_help : String
deriving Repr, DecidableEq

/-- Ids of Python command-class objects. -/
abbrev ClassId := Nat

/-- The mutable state the registry code touches: the class attributes of
every command-class object (a process-global: `register` mutates the class
itself) and the singleton registry field `_command_cache`. -/
structure RegistryWorld where
  attrs : List (ClassId × ClassAttrs)
  cache : List (String × ClassId)
deriving Repr, DecidableEq

/-- Reading `cls.command_name` / `cls.command_help`: a class that was never
stamped falls back to the `ClassVar` defaults `""`/`""` inherited from
`CommandArgsModel`. -/
def attrsGet (attrs : List (ClassId × ClassAttrs)) (cls : ClassId) : ClassAttrs :=
  (pyDictGet attrs cls).getD ⟨"", ""⟩

namespace CommandRegistryHelper

/-- Models `CommandRegistryHelper.register(name, help_text, command_class)`:
stamps `command_class.command_name = name`, `command_class.command_help =
help_text`, then `self._command_cache[name] = command_class`. -/
def register (w : RegistryWorld) (name help_text : String) (command_class : ClassId) :
    RegistryWorld :=
  { attrs := pyDictInsert w.attrs command_class ⟨name, help_text⟩,
    cache := pyDictInsert w.cache name command_class }

/-- Models `CommandRegistryHelper.get_command(name)`: `self._command_cache.get(name)`. -/
def get_command (w : RegistryWorld) (name : String) : Option ClassId :=
  pyDictGet w.cache name

/-- Models `CommandRegistryHelper.get_all_commands()`: `list(self._command_cache.values())`. -/
def get_all_commands (w : RegistryWorld) : List ClassId :=
  pyDictValues w.cache

/-- Models `CommandRegistryHelper.clear_registry()`: `self._command_cache.clear()`. -/
def clear_registry (w : RegistryWorld) : RegistryWorld :=
  { w with cache := [] }

/-- Process-level view of the registry singleton: whether `_instance` has been
set, plus the shared mutable state. -/
structure Process where
  instanceExists : Bool
  world : RegistryWorld
deriving Repr, DecidableEq

/-- Calling the class, `CommandRegistryHelper()`: `__new__` returns the cached
singleton object (creating it the first time), after which Python runs the
`@dataclass`-generated `__init__` on that object.  `_command_cache` is a field
with `init=False` and `default_factory=dict`, so the generated `__init__`
executes `self._command_cache = dict()` — on every call, including calls that
received the already-existing singleton. -/
def dunderCall (p : Process) : Process :=
  { instanceExists := true, world := { p.world with cache := [] } }

/-- Models `CommandRegistryHelper.get_instance()`: `return cls()`. -/
def get_instance (p : Process) : Process :=
  dunderCall p

end CommandRegistryHelper

/-- The `@command(name, help_text)` decorator
(src/py_clean_cli/decorators/command_decorator.py): calls
`COMMAND_REGISTRY.register(name, help_text, cls)` and returns `cls`. -/
def command (w : RegistryWorld) (name help_text : String) (cls : ClassId) :
    RegistryWorld :=
  CommandRegistryHelper.register w name help_text cls

/-- Modelled Python exceptions raised by the embedded code. -/
inductive PyExc where
  | typeError (msg : String)
  | valueError (msg : String)
  | keyError (msg : String)
  | pySyntaxError
  | pyNameError
  | otherException
  | systemExit
deriving Repr, DecidableEq

/-- Ids of parser objects. -/
abbrev ParserId := Nat

/-- State of one `simple_parsing.ArgumentParser`: whether `add_subparsers` was
already called on it (argparse allows it at most once) and the
`(name, help)` sub-commands added through `subparsers.add_parser`. -/
structure ParserState where
  hasSubparsers : Bool
  subcommands : List (String × String)
deriving Repr, DecidableEq

/-- The fields of one `CommandsManager` instance.  `subparsersInit` is whether
`self.subparsers` holds the action returned by `add_subparsers` (`true`) or the
dataclass default `None` (`false`). -/
structure ManagerState where
  parser : ParserId
  subparsersInit : Bool
  commands : List (String × ClassId)
  registered : List String
deriving Repr, DecidableEq

/-- All state the `CommandsManager` code touches: the registry world (class
attributes + `COMMAND_REGISTRY._command_cache`), the class-level
`_instances : Dict[int, CommandsManager]` keyed by `id(parser)`, and each
per-parser state. -/
structure ManagerWorld where
  reg : RegistryWorld
  instances : List (ParserId × ManagerState)
  parsers : List (ParserId × ParserState)
deriving Repr, DecidableEq

/-- Read the state of a parser (a parser that was never touched has no subparsers
and no sub-commands). -/
def parserGetD (ps : List (ParserId × ParserState)) (pid : ParserId) : ParserState :=
  (pyDictGet ps pid).getD ⟨false, []⟩

/-- Read the state of a manager instance; the default is never used by the theorems
below (they only call it for parser ids previously put into `_instances`). -/
def mgrGetD (ms : List (ParserId × ManagerState)) (pid : ParserId) : ManagerState :=
  (pyDictGet ms pid).getD ⟨0, false, [], []⟩

namespace CommandsManager

/-- Calling the class, `CommandsManager(parser)` (which is exactly what
`get_instance` does): Python runs `__new__`, which stores a (new or cached)
instance in `cls._instances[id(parser)]` and returns it, and then always runs
the `@dataclass`-generated `__init__` on the returned object — resetting
`parser`, `subparsers = None`, `commands = dict()`, `_registered_parsers =
set()` — followed by `__post_init__`, which calls
`self.parser.add_subparsers(dest="command", required=True)`.  argparse rejects
a second `add_subparsers` call on the same parser
(`error` with message `cannot have multiple subparser arguments`), which raises
`SystemExit`; the field resets performed by `__init__` have already happened
at that point.  The result is the updated world plus the exception, if any. -/
def dunderCall (w : ManagerWorld) (pid : ParserId) : ManagerWorld × Option PyExc :=
  let initState : ManagerState := ⟨pid, false, [], []⟩
  let ps := parserGetD w.parsers pid
  if ps.hasSubparsers then
    ({ w with instances := pyDictInsert w.instances pid initState }, some .systemExit)
  else
    ({ w with
        instances := pyDictInsert w.instances pid { initState with subparsersInit := true },
        parsers := pyDictInsert w.parsers pid { ps with hasSubparsers := true } },
      none)

/-- Models `CommandsManager.get_instance(parser)`: `return cls(parser=parser)`. -/
def get_instance (w : ManagerWorld) (pid : ParserId) : ManagerWorld × Option PyExc :=
  dunderCall w pid

/-- Models `CommandsManager.register_command(command_class)`: reads
`command_class.command_name`; if it is in `self._registered_parsers` the call
is a no-op, otherwise it adds a sub-parser named after it with
`command_class.command_help`, stores the class in `self.commands` and records
the name in `self._registered_parsers`. -/
def register_command (w : ManagerWorld) (pid : ParserId) (cls : ClassId) :
    ManagerWorld :=
  let m := mgrGetD w.instances pid
  let a := attrsGet w.reg.attrs cls
  if a.command_name ∈ m.registered then w
  else
    let ps := parserGetD w.parsers pid
    { w with
      instances := pyDictInsert w.instances pid
        { m with
          commands := pyDictInsert m.commands a.command_name cls,
          registered := m.registered ++ [a.command_name] },
      parsers := pyDictInsert w.parsers pid
        { ps with subcommands := ps.subcommands ++ [(a.command_name, a.command_help)] } }

/-- Models `CommandsManager.register_all_commands()`: iterates over
`COMMAND_REGISTRY.get_all_commands()` and calls `register_command` on each. -/
def register_all_commands (w : ManagerWorld) (pid : ParserId) : ManagerWorld :=
  (CommandRegistryHelper.get_all_commands w.reg).foldl
    (fun acc cls => register_command acc pid cls) w

/-- Whether `CommandsManager` instances are hashable.  `CommandsManager` is a
plain `@dataclass` (so `eq=True`, `frozen=False`), and in that configuration
the dataclass machinery sets `__hash__ = None` on the class, making instances
unhashable. -/
def instancesHashable : Bool := false

/-- The body of `CommandsManager.get_command_class(command_name)` (the code
wrapped by `@lru_cache(maxsize=32)`): a local `self.commands` hit is returned;
otherwise the global registry is consulted and, on a hit,
`register_command(cmd_class)` runs (keyed by `cmd_class.command_name`) before
`return self.commands[command_name]` (a `KeyError` if the stamped name of the class
differs from the requested one); if the registry also misses, it raises
`ValueError(f"Unknown command: \x7bcommand_name\x7d")`. -/
def get_command_class_body (w : ManagerWorld) (pid : ParserId) (cname : String) :
    ManagerWorld × Except PyExc ClassId :=
  let m := mgrGetD w.instances pid
  match pyDictGet m.commands cname with
  | some cls => (w, .ok cls)
  | none =>
    match CommandRegistryHelper.get_command w.reg cname with
    | some cls =>
      let w' := register_command w pid cls
      match pyDictGet (mgrGetD w'.instances pid).commands cname with
      | some c => (w', .ok c)
      | none => (w', .error (.keyError cname))
    | none => (w, .error (.valueError ("Unknown command: " ++ cname)))

/-- Models `CommandsManager.get_command_class(command_name)` as actually invoked:
`functools.lru_cache` first builds a cache key from `(self, command_name)` and
hashes it; since `CommandsManager` instances are unhashable (see
`instancesHashable`), every call raises
`TypeError` (`unhashable type: CommandsManager`) before the body runs. -/
def get_command_class (w : ManagerWorld) (pid : ParserId) (cname : String) :
    ManagerWorld × Except PyExc ClassId :=
  if instancesHashable then get_command_class_body w pid cname
  else (w, .error (.typeError "unhashable type: CommandsManager"))

end CommandsManager

/-! Discovery model (src/py_clean_cli/helpers/discover_commands_helper.py). -/

/-- What executing the top-level code of a given source file does when it is
loaded: succeed, or raise a missing-dependency `ImportError`, a
`SyntaxError`, a `NameError` (reference error), or some other `Exception`. -/
inductive ImportOutcome where
  | ok
  | importError
  | syntaxError
  | nameError
  | otherError
deriving Repr, DecidableEq

/-- A file on the modelled filesystem: its absolute path (as components) and
what loading it does.  The filesystem is a list of such files; directories
are implicit (a directory exists iff some file lies strictly inside it). -/
structure PyFsFile where
  path : List String
  outcome : ImportOutcome
deriving Repr, DecidableEq

/-- Models `Path.name`: the final path component. -/
def fileName (p : List String) : String :=
  p.getLastD ""

/-- Structural prefix test on lists (used instead of `BEq`-based
`List.isPrefixOf` so that concrete runs reduce in the kernel). -/
def listIsPrefix {β : Type u} [DecidableEq β] : List β → List β → Bool
  | [], _ => true
  | _ :: _, [] => false
  | a :: as, b :: bs => if a = b then listIsPrefix as bs else false

/-- Models Python `str.startswith(pre)`. -/
def strStartsWith (s pre : String) : Bool :=
  listIsPrefix pre.toList s.toList

/-- Models Python `str.endswith(post)` — which is also what matching the
glob pattern `*.py` against a file name amounts to. -/
def strEndsWith (s post : String) : Bool :=
  listIsPrefix post.toList.reverse s.toList.reverse

/-- Is `root` a directory containing `p` (strictly)? -/
def strictlyUnder (root p : List String) : Bool :=
  listIsPrefix root p && !(decide (root = p))

/-- Models `_find_python_files(package_path)`:
`[f for f in Path(package_path).rglob("*.py") if not f.name.startswith("_")]`.
`rglob` yields every file under the directory whose name matches `*.py` and
yields nothing when the path does not exist or is not a directory (the pathlib
selector then returns an empty iterator — no exception). -/
def find_python_files (files : List PyFsFile) (root : List String) : List PyFsFile :=
  files.filter (fun f =>
    strictlyUnder root f.path &&
    strEndsWith (fileName f.path) ".py" &&
    !(strStartsWith (fileName f.path) "_"))

/-- Result of one `_import_module_from_file` call. -/
inductive LoadResult where
  | loaded
  | caughtLogged
  | raised (e : PyExc)
deriving Repr, DecidableEq

/-- The fallback branch of `_import_module_from_file`: build a spec with
`spec_from_file_location` and `exec_module` it, with `except Exception`
around the whole attempt — every failure is caught and logged. -/
def specFallback (f : PyFsFile) : LoadResult :=
  match f.outcome with
  | .ok => .loaded
  | _ => .caughtLogged

/-- Models `_import_module_from_file(file)`: first tries
`import_module(".".join(file.relative_to(PROJECT_ROOT).with_suffix("").parts))`
inside `try ... except (ImportError, ValueError)`.  `relative_to` raises
`ValueError` when the file is not under the process working directory
(caught, fall back); a missing dependency raises `ImportError` (caught, fall
back); but a `SyntaxError` or `NameError` raised while executing the module is
not in the caught tuple and propagates out. -/
def import_module_from_file (cwd : List String) (f : PyFsFile) : LoadResult :=
  if listIsPrefix cwd f.path then
    match f.outcome with
    | .ok => .loaded
    | .importError => specFallback f
    | .syntaxError => .raised .pySyntaxError
    | .nameError => .raised .pyNameError
    | .otherError => .raised .otherException
  else
    specFallback f

/-- The loop body of `discover_commands`: load each found file in turn; the
loop has no exception handler of its own, so the first propagating exception
aborts it.  Returns the paths of the files actually attempted, and the
propagated exception, if any. -/
def discoverLoop (cwd : List String) : List PyFsFile → List (List String) × Option PyExc
  | [] => ([], none)
  | f :: rest =>
    match import_module_from_file cwd f with
    | .raised e => ([f.path], some e)
    | _ =>
      let r := discoverLoop cwd rest
      (f.path :: r.1, r.2)

/-- Models `discover_commands(package_path)`: `_find_python_files` then the import
loop. -/
def discover_commands (cwd : List String) (files : List PyFsFile)
    (root : List String) : List (List String) × Option PyExc :=
  discoverLoop cwd (find_python_files files root)

/-- Models `Path(p).is_dir()` on the modelled filesystem. -/
def isDirIn (files : List PyFsFile) (p : List String) : Bool :=
  files.any (fun f => strictlyUnder p f.path)

/-- The path validation in `package_cli` (src/py_clean_cli/main.py):
`if not Path(package_path).is_dir(): raise ValueError(...)`, before
`discover_commands` is ever called. -/
def package_cli_check (files : List PyFsFile) (package_path : List String) :
    Except PyExc Unit :=
  if isDirIn files package_path then .ok ()
  else .error (.valueError "The provided package_path is not a valid directory.")

/-! Registry operation sequences, for the invariant claim. -/

/-- One registry-mutating operation: a direct `register` call, a
`@command(name, help_text)` decoration (which calls `register`), or
`clear_registry`. -/
inductive RegOp where
  | direct (name help_text : String) (cls : ClassId)
  | decorated (name help_text : String) (cls : ClassId)
  | clear
deriving Repr, DecidableEq

/-- Runs one registry operation. -/
def applyRegOp (w : RegistryWorld) : RegOp → RegistryWorld
  | .direct n h c => CommandRegistryHelper.register w n h c
  | .decorated n h c => command w n h c
  | .clear => CommandRegistryHelper.clear_registry w

/-- Runs a sequence of registry operations. -/
def applyRegOps (w : RegistryWorld) (ops : List RegOp) : RegistryWorld :=
  ops.foldl applyRegOp w

/-- Whether the name an operation registers is non-empty (`clear` registers
nothing). -/
def regOpNameOk : RegOp → Bool
  | .direct n _ _ => !(n == "")
  | .decorated n _ _ => !(n == "")
  | .clear => true

/-- Whether every name key in the registry mapping is a non-empty string. -/
def cacheKeysNonempty (w : RegistryWorld) : Bool :=
  (pyDictKeys w.cache).all (fun k => !(k == ""))

theorem applyRegOp_keeps_nonempty {w : RegistryWorld} {op : RegOp}
    (hw : cacheKeysNonempty w = true) (hop : regOpNameOk op = true) :
    cacheKeysNonempty (applyRegOp w op) = true := by
  cases op with
  | direct n h c =>
    rw [cacheKeysNonempty, List.all_eq_true] at hw ⊢
    intro k hk
    have hk' : k ∈ pyDictKeys (pyDictInsert w.cache n c) := by
      simpa [applyRegOp, CommandRegistryHelper.register] using hk
    rcases mem_pyDictKeys_insert hk' with rfl | hmem
    · simpa [regOpNameOk] using hop
    · exact hw k hmem
  | decorated n h c =>
    rw [cacheKeysNonempty, List.all_eq_true] at hw ⊢
    intro k hk
    have hk' : k ∈ pyDictKeys (pyDictInsert w.cache n c) := by
      simpa [applyRegOp, command, CommandRegistryHelper.register] using hk
    rcases mem_pyDictKeys_insert hk' with rfl | hmem
    · simpa [regOpNameOk] using hop
    · exact hw k hmem
  | clear =>
    simp [cacheKeysNonempty, applyRegOp, CommandRegistryHelper.clear_registry, pyDictKeys]

theorem applyRegOps_keeps_nonempty :
    ∀ (ops : List RegOp) (w : RegistryWorld), cacheKeysNonempty w = true →
      (∀ op ∈ ops, regOpNameOk op = true) →
      cacheKeysNonempty (applyRegOps w ops) = true
  | [], _, hw, _ => hw
  | op :: rest, w, hw, hops =>
    applyRegOps_keeps_nonempty rest (applyRegOp w op)
      (applyRegOp_keeps_nonempty hw (hops op (List.mem_cons_self _ _)))
      (fun o ho => hops o (List.mem_cons_of_mem _ ho))

/-! Claim theorems. -/

/-- C1: for every prior registry state, name `n`, help text `h`, and command
class `C`, `register(n, h, C)` followed by `get_command(n)` returns exactly
`C`, and after the call the stamped `command_name` and `command_help` of `C`
equal `n` and `h`. -/
theorem c1_register_then_get_command (w : RegistryWorld) (n h : String) (C : ClassId) :
    CommandRegistryHelper.get_command (CommandRegistryHelper.register w n h C) n = some C ∧
    attrsGet (CommandRegistryHelper.register w n h C).attrs C = ⟨n, h⟩ := by
  constructor
  · simpa [CommandRegistryHelper.get_command, CommandRegistryHelper.register] using
      pyDictGet_insert_self w.cache n C
  · simp [attrsGet, CommandRegistryHelper.register, pyDictGet_insert_self]

/-- C6: registering `c1` then `c2` under the same name `n` leaves only `c2`
retrievable under `n`, and the second registration does not change the length
of `get_all_commands()` — with duplicate-free keys the length keeps counting
unique names only. -/
theorem c6_last_registration_wins (w : RegistryWorld) (n h1 h2 : String)
    (c1 c2 : ClassId) (hcls : c1 ≠ c2) (hnd : (pyDictKeys w.cache).Nodup) :
    CommandRegistryHelper.get_command
        (CommandRegistryHelper.register (CommandRegistryHelper.register w n h1 c1) n h2 c2) n
      = some c2 ∧
    (CommandRegistryHelper.get_all_commands
        (CommandRegistryHelper.register (CommandRegistryHelper.register w n h1 c1) n h2 c2)).length
      = (CommandRegistryHelper.get_all_commands
          (CommandRegistryHelper.register w n h1 c1)).length ∧
    (pyDictKeys (CommandRegistryHelper.register
        (CommandRegistryHelper.register w n h1 c1) n h2 c2).cache).Nodup := by
  refine ⟨?_, ?_, ?_⟩
  · simpa [CommandRegistryHelper.get_command, CommandRegistryHelper.register] using
      pyDictGet_insert_self (pyDictInsert w.cache n c1) n c2
  · simp only [CommandRegistryHelper.get_all_commands, CommandRegistryHelper.register,
      pyDictValues, List.length_map]
    exact length_pyDictInsert_of_mem c2 (mem_pyDictKeys_insert_self w.cache n c1)
  · exact nodup_pyDictKeys_insert n c2 (nodup_pyDictKeys_insert n c1 hnd)

/-- Witness for C6 at a concrete input. -/
theorem c6_last_registration_wins_witness :
    (1 : ClassId) ≠ 2 ∧ (pyDictKeys (RegistryWorld.mk [] []).cache).Nodup ∧
    (CommandRegistryHelper.get_command
        (CommandRegistryHelper.register
          (CommandRegistryHelper.register ⟨[], []⟩ "dup" "First" 1) "dup" "Second" 2) "dup"
      = some 2 ∧
    (CommandRegistryHelper.get_all_commands
        (CommandRegistryHelper.register
          (CommandRegistryHelper.register ⟨[], []⟩ "dup" "First" 1) "dup" "Second" 2)).length
      = (CommandRegistryHelper.get_all_commands
          (CommandRegistryHelper.register ⟨[], []⟩ "dup" "First" 1)).length ∧
    (pyDictKeys (CommandRegistryHelper.register
        (CommandRegistryHelper.register ⟨[], []⟩ "dup" "First" 1) "dup" "Second" 2).cache).Nodup) :=
  ⟨by decide, by decide,
    c6_last_registration_wins ⟨[], []⟩ "dup" "First" "Second" 1 2 (by decide) (by decide)⟩

/-- Registry state holding one registered command, used for the C8 run. -/
def c8World : RegistryWorld := CommandRegistryHelper.register ⟨[], []⟩ "x" "some help" 7

/-- C8 (code bug, evaluated at the failing input): `get_instance()` returns
the one singleton object (`_instance` is reused), but because calling the
class re-runs the `@dataclass`-generated `__init__`, the `init=False` field
`_command_cache` is re-created by its `default_factory` — the mapping is
wiped, so a command registered before the call is gone after it. -/
theorem c8_get_instance_resets_cache :
    CommandRegistryHelper.get_command c8World "x" = some 7 ∧
    (CommandRegistryHelper.get_instance ⟨true, c8World⟩).instanceExists = true ∧
    (CommandRegistryHelper.get_instance ⟨true, c8World⟩).world.cache = [] ∧
    CommandRegistryHelper.get_command
      (CommandRegistryHelper.get_instance ⟨true, c8World⟩).world "x" = none := by
  decide

/-- C9 (counterexample): the code never validates names, so a single
`register("", ...)` puts the empty string into the mapping and the stated
invariant fails. -/
theorem c9_counterexample :
    cacheKeysNonempty (applyRegOps ⟨[], []⟩ [RegOp.direct "" "h" 0]) = false := by
  decide

/-- C9 (amended): after any sequence of registry operations in which every
registration — direct or via the `@command` decorator — passes a non-empty
name, every key in the mapping is non-empty; the registry itself enforces
nothing. -/
theorem c9_amended_nonempty_keys (w : RegistryWorld) (hw : cacheKeysNonempty w = true)
    (ops : List RegOp) (hops : ∀ op ∈ ops, regOpNameOk op = true) :
    cacheKeysNonempty (applyRegOps w ops) = true :=
  applyRegOps_keeps_nonempty ops w hw hops

/-- Witness for the amended C9 at a concrete input. -/
theorem c9_amended_nonempty_keys_witness :
    cacheKeysNonempty ⟨[], []⟩ = true ∧
    (∀ op ∈ [RegOp.direct "a" "h1" 1, RegOp.clear, RegOp.decorated "b" "h2" 2],
        regOpNameOk op = true) ∧
    cacheKeysNonempty (applyRegOps ⟨[], []⟩
        [RegOp.direct "a" "h1" 1, RegOp.clear, RegOp.decorated "b" "h2" 2]) = true :=
  ⟨by decide, by decide,
    c9_amended_nonempty_keys ⟨[], []⟩ (by decide) _ (by decide)⟩

/-- Registry world holding one stamped command class (id `5`, name `greet`),
used for the C2 run. -/
def c2Reg : RegistryWorld := ⟨[(5, ⟨"greet", "hi"⟩)], []⟩

/-- Manager world after the first `get_instance(parser)` for parser `0`. -/
def c2World1 : ManagerWorld := (CommandsManager.get_instance ⟨c2Reg, [], []⟩ 0).1

/-- Manager world after additionally registering the `greet` command on the
manager. -/
def c2World2 : ManagerWorld := CommandsManager.register_command c2World1 0 5

/-- C2 (code bug, evaluated at the failing input): a second
`get_instance(parser)` for the same parser does return the cached instance,
but Python re-runs the dataclass `__init__` and `__post_init__` on it: the
`commands` mapping and `_registered_parsers` set are reset to empty,
`subparsers` is reset to `None`, and the second `add_subparsers` call makes
argparse raise `SystemExit` — the manager is not returned unchanged. -/
theorem c2_second_get_instance_resets :
    (CommandsManager.get_instance ⟨c2Reg, [], []⟩ 0).2 = none ∧
    (mgrGetD c2World2.instances 0).commands = [("greet", 5)] ∧
    (mgrGetD c2World2.instances 0).registered = ["greet"] ∧
    (mgrGetD c2World2.instances 0).subparsersInit = true ∧
    (CommandsManager.get_instance c2World2 0).2 = some .systemExit ∧
    (mgrGetD (CommandsManager.get_instance c2World2 0).1.instances 0).commands = [] ∧
    (mgrGetD (CommandsManager.get_instance c2World2 0).1.instances 0).registered = [] ∧
    (mgrGetD (CommandsManager.get_instance c2World2 0).1.instances 0).subparsersInit = false := by
  decide

/-- Manager world with command `mock_cmd` (class id `9`) registered both
globally and locally on the manager for parser `0`, mirroring the repository
test fixture; used for the C7 run. -/
def c7World : ManagerWorld :=
  ⟨⟨[(9, ⟨"mock_cmd", "Mock command"⟩)], [("mock_cmd", 9)]⟩,
   [(0, ⟨0, true, [("mock_cmd", 9)], ["mock_cmd"]⟩)],
   [(0, ⟨true, [("mock_cmd", "Mock command")]⟩)]⟩

/-- C7 (code bug, evaluated at the failing input): even though `mock_cmd` is
in the local `commands` mapping, `get_command_class("mock_cmd")` raises
`TypeError` — the `lru_cache` wrapper hashes `(self, name)` and instances of
a dataclass with `eq=True, frozen=False` are unhashable — instead of
returning the class; a missing name likewise gets the `TypeError` instead of
the unknown-command `ValueError`. -/
theorem c7_get_command_class_type_error :
    pyDictGet (mgrGetD c7World.instances 0).commands "mock_cmd" = some 9 ∧
    (CommandsManager.get_command_class c7World 0 "mock_cmd").2
      = .error (.typeError "unhashable type: CommandsManager") ∧
    (CommandsManager.get_command_class c7World 0 "missing").2
      = .error (.typeError "unhashable type: CommandsManager") :=
  ⟨rfl, rfl, rfl⟩

/-- Registry world after registering the same class `C` first under `n1` and
then under `n2`, starting from an empty cache (the double-decoration
scenario). -/
def c10Reg (attrs0 : List (ClassId × ClassAttrs)) (n1 n2 h1 h2 : String) (C : ClassId) :
    RegistryWorld :=
  CommandRegistryHelper.register (CommandRegistryHelper.register ⟨attrs0, []⟩ n1 h1 C) n2 h2 C

/-- A manager world whose manager for parser `0` is freshly constructed:
subparsers ready, nothing registered yet. -/
def freshManagerWorld (rw : RegistryWorld) : ManagerWorld :=
  ⟨rw, [(0, ⟨0, true, [], []⟩)], [(0, ⟨true, []⟩)]⟩

/-- C10: after registering the same class `C` under `n1` and then under a
different name `n2`, both `get_command(n1)` and `get_command(n2)` return `C`,
whose stamped `command_name` is `n2` (the last registration); consequently
`register_all_commands` — which reads `command_name` off each class — adds
exactly one sub-command, named `n2`, for the two registry entries. -/
theorem c10_double_registration_one_subcommand
    (attrs0 : List (ClassId × ClassAttrs)) (n1 n2 h1 h2 : String) (C : ClassId)
    (hne : n1 ≠ n2) :
    CommandRegistryHelper.get_command (c10Reg attrs0 n1 n2 h1 h2 C) n1 = some C ∧
    CommandRegistryHelper.get_command (c10Reg attrs0 n1 n2 h1 h2 C) n2 = some C ∧
    (attrsGet (c10Reg attrs0 n1 n2 h1 h2 C).attrs C).command_name = n2 ∧
    (mgrGetD (CommandsManager.register_all_commands
        (freshManagerWorld (c10Reg attrs0 n1 n2 h1 h2 C)) 0).instances 0).registered
      = [n2] ∧
    (parserGetD (CommandsManager.register_all_commands
        (freshManagerWorld (c10Reg attrs0 n1 n2 h1 h2 C)) 0).parsers 0).subcommands
      = [(n2, h2)] := by
  refine ⟨?_, ?_, ?_, ?_, ?_⟩ <;>
    simp [c10Reg, freshManagerWorld, CommandRegistryHelper.register,
      CommandRegistryHelper.get_command, CommandRegistryHelper.get_all_commands,
      CommandsManager.register_all_commands, CommandsManager.register_command,
      attrsGet, mgrGetD, parserGetD, pyDictInsert, pyDictGet, pyDictValues,
      pyDictGet_insert_self, hne]

/-- Witness for C10 at a concrete input. -/
theorem c10_double_registration_one_subcommand_witness :
    ("a" : String) ≠ "b" ∧
    (CommandRegistryHelper.get_command (c10Reg [] "a" "b" "h1" "h2" 3) "a" = some 3 ∧
     CommandRegistryHelper.get_command (c10Reg [] "a" "b" "h1" "h2" 3) "b" = some 3 ∧
     (attrsGet (c10Reg [] "a" "b" "h1" "h2" 3).attrs 3).command_name = "b" ∧
     (mgrGetD (CommandsManager.register_all_commands
         (freshManagerWorld (c10Reg [] "a" "b" "h1" "h2" 3)) 0).instances 0).registered
       = ["b"] ∧
     (parserGetD (CommandsManager.register_all_commands
         (freshManagerWorld (c10Reg [] "a" "b" "h1" "h2" 3)) 0).parsers 0).subcommands
       = [("b", "h2")]) :=
  ⟨by decide, c10_double_registration_one_subcommand [] "a" "b" "h1" "h2" 3 (by decide)⟩

/-- Directory with a syntax-error file and a healthy file, both inside the
process working directory; used for the C3 run. -/
def c3Files : List PyFsFile :=
  [⟨["home", "proj", "cmds", "bad.py"], .syntaxError⟩,
   ⟨["home", "proj", "cmds", "good.py"], .ok⟩]

/-- C3 (code bug, evaluated at the failing input): both files match the scan,
but the `SyntaxError` raised while importing `bad.py` is not in the
`(ImportError, ValueError)` tuple the standard-import attempt catches, so it
propagates out of `discover_commands` and `good.py` is never attempted. -/
theorem c3_syntax_error_aborts_scan :
    find_python_files c3Files ["home", "proj", "cmds"] = c3Files ∧
    discover_commands ["home", "proj"] c3Files ["home", "proj", "cmds"]
      = ([["home", "proj", "cmds", "bad.py"]], some .pySyntaxError) := by
  decide

/-- Package directory with a file raising a top-level `NameError` (reference
error) and a healthy file in a subdirectory; used for the C5 run. -/
def c5Files : List PyFsFile :=
  [⟨["home", "proj", "pkg", "aaa.py"], .nameError⟩,
   ⟨["home", "proj", "pkg", "sub", "zzz.py"], .ok⟩]

/-- C5 (code bug, evaluated at the failing input): the enumeration matches
exactly the two non-underscore `.py` files, but the propagating `NameError`
from `aaa.py` aborts the loop, so the matching file `zzz.py` is attempted
zero times — the set of matching files is not exhaustively attempted. -/
theorem c5_matching_file_never_attempted :
    find_python_files c5Files ["home", "proj", "pkg"] = c5Files ∧
    discover_commands ["home", "proj"] c5Files ["home", "proj", "pkg"]
      = ([["home", "proj", "pkg", "aaa.py"]], some .pyNameError) := by
  decide

/-- Filesystem with a single python file, for the C4 run. -/
def c4Files : List PyFsFile := [⟨["home", "proj", "cmds", "a.py"], .ok⟩]

/-- C4 (counterexample): on a path that does not exist, `discover_commands`
raises nothing and attempts nothing — it does not fail with any error the
caller could catch, contradicting the claim. -/
theorem c4_counterexample :
    isDirIn c4Files ["nope"] = false ∧
    discover_commands ["home", "proj"] c4Files ["nope"] = ([], none) := by
  decide

/-- C4 (amended): `discover_commands` itself performs no path validation —
on a path that does not exist or is not a directory it silently attempts
nothing and raises nothing; the validation lives in the CLI bootstrap
`package_cli`, which raises `ValueError` before discovery is invoked. -/
theorem c4_amended_validation_in_package_cli
    (cwd : List String) (files : List PyFsFile) (root : List String)
    (h : isDirIn files root = false) :
    package_cli_check files root
      = .error (.valueError "The provided package_path is not a valid directory.") ∧
    discover_commands cwd files root = ([], none) := by
  have hall : ∀ f ∈ files, strictlyUnder root f.path = false := by
    rw [isDirIn, List.any_eq_false] at h
    intro f hf
    exact Bool.eq_false_iff.mpr (h f hf)
  constructor
  · simp [package_cli_check, h]
  · have hfind : find_python_files files root = [] := by
      rw [find_python_files]
      refine List.filter_eq_nil_iff.mpr ?_
      intro f hf
      simp [hall f hf]
    simp [discover_commands, hfind, discoverLoop]

/-- Witness for the amended C4 at a concrete input. -/
theorem c4_amended_validation_in_package_cli_witness :
    isDirIn [PyFsFile.mk ["home", "proj", "cmds", "a.py"] .ok] ["home", "other"] = false ∧
    (package_cli_check [PyFsFile.mk ["home", "proj", "cmds", "a.py"] .ok] ["home", "other"]
        = .error (.valueError "The provided package_path is not a valid directory.") ∧
     discover_commands ["home", "proj"] [PyFsFile.mk ["home", "proj", "cmds", "a.py"] .ok]
        ["home", "other"] = ([], none)) :=
  ⟨by decide,
    c4_amended_validation_in_package_cli ["home", "proj"]
      [PyFsFile.mk ["home", "proj", "cmds", "a.py"] .ok] ["home", "other"] (by decide)⟩

end PyCleanCli
